import Mathlib

/-!
Verification of the configuration-normalization and events-matrix logic of
`src/make_epochs.py` (app-make-epochs).

The Python program is shallowly embedded: Python runtime values occurring in the
configuration are modelled by the inductive type `PyVal`, a configuration
dictionary by an association list `Cfg` (keys are unique in a Python dict; all
lookups read the first matching entry), and raised Python exceptions by
`Except PyErr`.  Python strings are processed as `List Char`; every helper is a
structural recursion so that concrete runs evaluate by `rfl`/`decide`.

External library calls (`mne.io.read_raw_fif`, `np.loadtxt`, `mne.Epochs`) are
collaborators outside this repository; they are modelled as succeeding, since
all properties verified here concern the code that runs before or independently
of them.
-/

/-- A Python runtime value, as far as the configuration handling of
`make_epochs.py` can observe it.  Floats are modelled as rationals: the only
float-producing site is `float(token)` on a decimal token (line 216), and no
float arithmetic is performed. -/
inductive PyVal where
  | none
  | bool (b : Bool)
  | int (n : Int)
  | float (q : Rat)
  | str (s : String)
  | list (xs : List PyVal)
  | tuple (xs : List PyVal)
  | slice (start stop : Int) (st : Option Int)
deriving Repr

/-- A raised Python exception, by site.  `pickBothSet` and `sliceArity` are the
`ValueError`s the spec calls `ValidationError`; `missingEvents` is the
`MissingInputError` of the spec taxonomy. -/
inductive PyErr where
  /-- Python ValueError, make_epochs.py lines 82-87: both pick parameters set. -/
  | pickBothSet
  /-- Python ValueError, lines 235-237: slice string with an arity other than 2 or 3. -/
  | sliceArity
  /-- Python ValueError raised by `int(...)` on a non-integer token. -/
  | intParse
  /-- Python ValueError raised by `float(...)` on a non-numeric token. -/
  | floatParse
  /-- Python TypeError raised by `tuple(...)` on a non-iterable value. -/
  | typeError
  /-- Python TypeError raised at a call whose keyword arguments do not match
  the function signature (missing required or unexpected parameters). -/
  | typeErrorKwargs
  /-- Python AttributeError raised by `.find(...)` on a value that is not a string. -/
  | attrError
  /-- Python KeyError on a dictionary access with an absent key. -/
  | keyError (k : String)
  /-- Python ValueError, lines 130-135: the events file does not exist. -/
  | missingEvents
deriving Repr, DecidableEq

/-- Decimal digits accumulated left to right; `Option.none` when a non-digit
appears (so the whole token is rejected, as Python `int`/`float` do). -/
def digitsVal : List Char → Nat → Option Nat
  | [], acc => some acc
  | c :: rest, acc =>
      if c.isDigit then digitsVal rest (acc * 10 + (c.toNat - '0'.toNat))
      else Option.none

/-- Magnitude part of Python `int(s)`: an optional sign followed by at least
one digit.  (Underscore separators accepted by Python are not modelled; no
caller of this app produces them.) -/
def pyIntCore : List Char → Option Int
  | [] => Option.none
  | '-' :: rest => if rest = [] then Option.none else (digitsVal rest 0).map (fun n => -(n : Int))
  | '+' :: rest => if rest = [] then Option.none else (digitsVal rest 0).map Int.ofNat
  | s => (digitsVal s 0).map Int.ofNat

/-- Python `str.strip()` of whitespace, applied by `int()`/`float()`. -/
def pyStrip (s : List Char) : List Char :=
  ((s.dropWhile Char.isWhitespace).reverse.dropWhile Char.isWhitespace).reverse

/-- Python `int(s)` on a string: strips whitespace, then optional sign and
digits; raises `ValueError` otherwise. -/
def pyInt (s : List Char) : Except PyErr Int :=
  match pyIntCore (pyStrip s) with
  | some n => .ok n
  | Option.none => .error .intParse

/-- Magnitude part of Python `float(s)` restricted to plain decimal literals
`ddd`, `ddd.ddd`, `.ddd`, `ddd.`; exponents and `inf`/`nan` are not modelled
(this parser backs line 216, which is unreachable in this revision — see
`normalizeBaseline`). -/
def pyFloatMag (s : List Char) : Option Rat :=
  let ip := s.takeWhile (fun c => c ≠ '.')
  match s.dropWhile (fun c => c ≠ '.') with
  | [] => if ip = [] then Option.none else (digitsVal ip 0).map (fun n => (n : Rat))
  | _ :: fp =>
      if (ip = [] && fp = []) || fp.contains '.' then Option.none
      else do
        let a ← if ip = [] then some 0 else digitsVal ip 0
        let b ← if fp = [] then some 0 else digitsVal fp 0
        some ((a : Rat) + (b : Rat) / ((10 : Rat) ^ fp.length))

/-- Python `float(s)`: strip, optional sign, decimal magnitude. -/
def pyFloat (s : List Char) : Except PyErr Rat :=
  let t := pyStrip s
  match t with
  | '-' :: rest => match pyFloatMag rest with
                   | some q => .ok (-q)
                   | Option.none => .error .floatParse
  | '+' :: rest => match pyFloatMag rest with
                   | some q => .ok q
                   | Option.none => .error .floatParse
  | _ => match pyFloatMag t with
         | some q => .ok q
         | Option.none => .error .floatParse

/-- Python `s.split(', ')` (the only separator this program splits on):
cuts the character list at every occurrence of the two-character separator
comma-space; if the separator does not occur, the whole string is the single
token. -/
def splitCommaSpace : List Char → List (List Char)
  | [] => [[]]
  | ',' :: ' ' :: rest => [] :: splitCommaSpace rest
  | c :: rest =>
      match splitCommaSpace rest with
      | [] => [[c]]
      | g :: gs => (c :: g) :: gs

/-- Bracket removal, `s.replace("[", "").replace("]", "")` of lines 241-242,
249-250 and 257-258: removes every square bracket. -/
def stripBrackets (s : List Char) : List Char :=
  s.filter (fun c => !(c = '[' || c = ']'))

/-- Test for None, as the Python code performs it with `v is None`. -/
def PyVal.isNone : PyVal → Bool
  | .none => true
  | _ => false

/-- Python `tuple(v)` (lines 204, 210): a string yields the tuple of its
one-character strings, a list or tuple yields the tuple of its elements, and
any non-iterable value raises `TypeError`. -/
def pyTupleOf : PyVal → Except PyErr PyVal
  | .str s => .ok (.tuple (s.toList.map (fun c => .str (String.mk [c]))))
  | .list xs => .ok (.tuple xs)
  | .tuple xs => .ok (.tuple xs)
  | _ => .error .typeError

/-- One token of the baseline string (lines 215-216): the literal `None`
becomes `None`, anything else goes through `float(...)`. -/
def parseBaselineTok (t : List Char) : Except PyErr PyVal :=
  if t = "None".toList then .ok PyVal.none
  else (pyFloat t).map PyVal.float

/-- Lines 214-218: split the baseline string on a comma-space, convert each
token, and assemble the tuple. -/
def parseBaselineStr (s : String) : Except PyErr PyVal := do
  let vals ← (splitCommaSpace s.toList).mapM parseBaselineTok
  .ok (.tuple vals)

/-- Lines 201-218, the whole `param_baseline` treatment, in source order:
line 203-204 applies `tuple(...)` to every non-None value (including strings),
line 209-210 re-tuples a list, and line 213-218 parses a string.  Because line
204 has already turned any string into a tuple of characters, the two later
branches never fire. -/
def normalizeBaseline (v : PyVal) : Except PyErr PyVal := do
  let v1 ← match v with
           | .none => Except.ok v
           | _ => pyTupleOf v
  let v2 ← match v1 with
           | .list xs => pyTupleOf (.list xs)
           | _ => Except.ok v1
  match v2 with
  | .str s => parseBaselineStr s
  | _ => Except.ok v2

/-- Lines 226-243, the `param_picks_by_channel_indices` treatment: a string
with a comma and no bracket is split on comma-space, parsed as integers and
turned into a slice of arity 2 or 3 (any other arity raises `ValueError`); a
string with a comma and a bracket has its brackets stripped and is parsed as a
list of integers; everything else passes through unchanged. -/
def normalizePicksIdx (v : PyVal) : Except PyErr PyVal :=
  match v with
  | .str s =>
      let cs := s.toList
      if cs.contains ',' && !cs.contains '[' then
        match (splitCommaSpace cs).mapM pyInt with
        | .error e => .error e
        | .ok ns =>
            match ns with
            | [a, b] => .ok (.slice a b Option.none)
            | [a, b, c] => .ok (.slice a b (some c))
            | _ => .error .sliceArity
      else if cs.contains ',' && cs.contains '[' then
        match (splitCommaSpace (stripBrackets cs)).mapM pyInt with
        | .error e => .error e
        | .ok ns => .ok (.list (ns.map PyVal.int))
      else .ok v
  | _ => .ok v

/-- Lines 245-251, the `param_picks_by_channel_types_or_names` treatment: a
bracketed string loses its brackets and is split on comma-space into a list of
strings (`map(str, ...)` is the identity on strings); everything else passes
through. -/
def normalizePicksNames (v : PyVal) : PyVal :=
  match v with
  | .str s =>
      if s.toList.contains '[' then
        .list ((splitCommaSpace (stripBrackets s.toList)).map (fun t => .str (String.mk t)))
      else v
  | _ => v

/-- Lines 253-261, the `param_event_id` treatment: None passes through; a
bracketed string is parsed as a list of integers, a plain string as one
integer.  A value that is neither None nor a string reaches
`config["param_event_id"].find("[")` and raises AttributeError, because
only strings have a `find` method. -/
def normalizeEventId (v : PyVal) : Except PyErr PyVal :=
  match v with
  | .none => .ok v
  | .str s =>
      if s.toList.contains '[' then
        match (splitCommaSpace (stripBrackets s.toList)).mapM pyInt with
        | .error e => .error e
        | .ok ns => .ok (.list (ns.map PyVal.int))
      else
        match pyInt s.toList with
        | .error e => .error e
        | .ok n => .ok (.int n)
  | _ => .error .attrError

/-- Lines 81-94 of `make_epochs`: raise `ValueError` when both pick parameters
are non-None, otherwise select the single effective `param_picks` value
(None when both are None). -/
def definePicks (names idx : PyVal) : Except PyErr PyVal :=
  if !names.isNone && !idx.isNone then .error .pickBothSet
  else if names.isNone && !idx.isNone then .ok idx
  else if !names.isNone && idx.isNone then .ok names
  else .ok PyVal.none

/-- The indices a Python `slice(start, stop)` / `slice(start, stop, step)`
selects from a sufficiently long sequence, for nonnegative bounds and positive
step (the only slices this program builds): the half-open range
`start ≤ i < stop` thinned by `step`. -/
def sliceIndices (start stop step : Int) : List Int :=
  ((List.range stop.toNat).map Int.ofNat).filter
    (fun i => decide (start ≤ i) && decide ((i - start) % step = 0))

/-- The configuration dictionary, as an association list.  A Python dict has
unique keys; every lookup below reads the first matching entry, so duplicate
keys would be inert. -/
abbrev Cfg := List (String × PyVal)

/-- Dictionary read `config[k]`, as an optional value. -/
def getVal : Cfg → String → Option PyVal
  | [], _ => Option.none
  | kv :: rest, k => if kv.1 = k then some kv.2 else getVal rest k

/-- Dictionary write `config[k] = v` on a dict that already holds `k` (every write in `main`
is preceded by a successful read of the same key). -/
def setKey : Cfg → String → PyVal → Cfg
  | [], _, _ => []
  | kv :: rest, k, v => (if kv.1 = k then (k, v) else kv) :: setKey rest k v

/-- Removal of a key from the dict. -/
def eraseKey : Cfg → String → Cfg
  | [], _ => []
  | kv :: rest, k => if kv.1 = k then eraseKey rest k else kv :: eraseKey rest k

/-- Python `config.pop(k)` or `del config[k]`: raises KeyError when the key is
absent. -/
def delKey (cfg : Cfg) (k : String) : Except PyErr Cfg :=
  if (getVal cfg k).isSome then .ok (eraseKey cfg k) else .error (.keyError k)

/-- Lines 160-161 map every entry whose value is the empty string to None. -/
def blankVal (v : PyVal) : PyVal :=
  match v with
  | .str s => if s = "" then PyVal.none else v
  | _ => v

/-- Lines 160-161: `config.update({k: None for k, v in config.items() if v == ""})`. -/
def blankToNone (cfg : Cfg) : Cfg :=
  cfg.map (fun kv => (kv.1, blankVal kv.2))

/-- One read-convert-write block of `main`: read `config[k]` (raising
`KeyError` when absent), convert the value, write it back. -/
def convertStep (cfg : Cfg) (k : String) (f : PyVal → Except PyErr PyVal) :
    Except PyErr Cfg :=
  match getVal cfg k with
  | Option.none => .error (.keyError k)
  | some v =>
      match f v with
      | .error e => .error e
      | .ok w => .ok (setKey cfg k w)

/-- Lines 269-270.  In Python, the condition of
`if "_app" and "_tid" and "_inputs" and "_outputs" in config.keys():` chains
`and` over truthy string literals, so it reduces to testing
`"_outputs" in config.keys()` alone; the `del` then removes `_app`, `_tid`,
`_inputs`, `_outputs` in that order, raising KeyError at the first absent
one. -/
def stripPlatform (cfg : Cfg) : Except PyErr Cfg :=
  if (getVal cfg "_outputs").isSome then do
    let c1 ← delKey cfg "_app"
    let c2 ← delKey c1 "_tid"
    let c3 ← delKey c2 "_inputs"
    delKey c3 "_outputs"
  else .ok cfg

/-- Lines 159-271 of `main`: the whole parameter-normalization block, applied
to the configuration left after the six input-path keys have been popped.
Empty strings become None, then `param_baseline`,
`param_picks_by_channel_indices`, `param_picks_by_channel_types_or_names` and
`param_event_id` are converted in source order (the `param_proj` conversion,
lines 220-224, is commented out in the source and therefore absent here), and
finally the platform keys are stripped.  The result is the keyword bundle
`kwargs` passed to `make_epochs`. -/
def normalizeParams (cfg : Cfg) : Except PyErr Cfg := do
  let cfg0 := blankToNone cfg
  let cfg1 ← convertStep cfg0 "param_baseline" normalizeBaseline
  let cfg2 ← convertStep cfg1 "param_picks_by_channel_indices" normalizePicksIdx
  let cfg3 ← convertStep cfg2 "param_picks_by_channel_types_or_names"
               (fun v => .ok (normalizePicksNames v))
  let cfg4 ← convertStep cfg3 "param_event_id" normalizeEventId
  stripPlatform cfg4

/-- The six `config.pop(...)` calls of lines 123-155, as one erasure chain. -/
def popInputKeys (cfg : Cfg) : Cfg :=
  eraseKey (eraseKey (eraseKey (eraseKey (eraseKey (eraseKey cfg "fif")
    "events") "crosstalk") "calibration") "destination") "headshape"

/-- Which of the paths named in the configuration exist on disk. -/
structure FS where
  eventsExists : Bool
  crosstalkExists : Bool
  calibrationExists : Bool
  destinationExists : Bool
  headshapeExists : Bool

/-- The observable outcome of one run of `main`: the output files written, in
order, and either the raised exception or the normalized keyword bundle that
was forwarded to the library call. -/
structure RunResult where
  writes : List String
  outcome : Except PyErr Cfg

/-- Error-propagation helper for `runMain`: on an exception the run aborts
with the files written so far. -/
def runStep (w : List String) (r : Except PyErr Cfg) (k : Cfg → RunResult) :
    RunResult :=
  match r with
  | .error e => ⟨w, .error e⟩
  | .ok c => k c

/-- The eighteen keyword parameters of `make_epochs` (lines 10-14), all
required: the signature gives none of them a default value. -/
def paramNames : List String :=
  ["param_event_id", "param_tmin", "param_tmax", "param_baseline",
   "param_picks_by_channel_types_or_names", "param_picks_by_channel_indices",
   "param_preload", "param_reject", "param_flat", "param_proj", "param_decim",
   "param_reject_tmin", "param_reject_tmax", "param_detrend", "param_on_missing",
   "param_reject_by_annotation", "param_metadata", "param_event_repeated"]

/-- Python keyword-argument binding at `make_epochs(raw, events_file, **kwargs)`
(line 274): the call raises TypeError before the function body runs unless
every required parameter is supplied and no unexpected keyword remains. -/
def bindKwargs (kwargs : Cfg) : Bool :=
  paramNames.all (fun k => (getVal kwargs k).isSome) &&
  kwargs.all (fun kv => paramNames.contains kv.1)

/-- Function `main` (lines 113-281) followed by `make_epochs`: pop the six input paths
(the `fif` read itself is an external call and writes nothing), raise when the
events file is missing, otherwise copy it; copy each auxiliary file that
exists; normalize the parameters; bind the keyword bundle against the
`make_epochs` signature (a mismatch raises TypeError at the call site, before
the function body); then, inside `make_epochs`, validate the pick parameters,
and (with the external `np.loadtxt` / `mne.Epochs` calls modelled as
succeeding) save the epoched data and write `product.json`. -/
def runMain (cfg : Cfg) (fs : FS) : RunResult :=
  runStep [] (delKey cfg "fif") fun cfgA =>
  runStep [] (delKey cfgA "events") fun cfgB =>
  if fs.eventsExists = false then ⟨[], .error .missingEvents⟩ else
  let w1 := ["out_dir_make_epochs/events.tsv"]
  runStep w1 (delKey cfgB "crosstalk") fun cfgC =>
  let w2 := w1 ++ (if fs.crosstalkExists then ["out_dir_make_epochs/crosstalk_meg.fif"] else [])
  runStep w2 (delKey cfgC "calibration") fun cfgD =>
  let w3 := w2 ++ (if fs.calibrationExists then ["out_dir_make_epochs/calibration_meg.dat"] else [])
  runStep w3 (delKey cfgD "destination") fun cfgE =>
  let w4 := w3 ++ (if fs.destinationExists then ["out_dir_make_epochs/destination.fif"] else [])
  runStep w4 (delKey cfgE "headshape") fun cfgF =>
  let w5 := w4 ++ (if fs.headshapeExists then ["out_dir_make_epochs/headshape.pos"] else [])
  runStep w5 (normalizeParams cfgF) fun kwargs =>
  if bindKwargs kwargs = false then ⟨w5, .error .typeErrorKwargs⟩ else
  runStep w5 (Except.map (fun _ => kwargs)
      (definePicks ((getVal kwargs "param_picks_by_channel_types_or_names").getD PyVal.none)
                   ((getVal kwargs "param_picks_by_channel_indices").getD PyVal.none)))
    fun kw =>
  ⟨w5 ++ ["out_dir_make_epochs/meg.fif", "product.json"], .ok kw⟩

theorem getVal_blankToNone (cfg : Cfg) (k : String) :
    getVal (blankToNone cfg) k = (getVal cfg k).map blankVal := by
  induction cfg with
  | nil => rfl
  | cons kv rest ih =>
      simp only [blankToNone, List.map_cons, getVal] at *
      by_cases h : kv.1 = k <;> simp [h, ih]

theorem getVal_setKey (cfg : Cfg) (k k2 : String) (v : PyVal) :
    getVal (setKey cfg k2 v) k =
      if k = k2 then (getVal cfg k2).map (fun _ => v) else getVal cfg k := by
  induction cfg with
  | nil => by_cases h : k = k2 <;> simp [setKey, getVal, h]
  | cons kv rest ih =>
      by_cases h1 : kv.1 = k2
      · by_cases h2 : k = k2
        · subst h2; simp [setKey, getVal, h1, ih]
        · have h2' : k2 ≠ k := fun he => h2 he.symm
          have hkv : kv.1 ≠ k := h1 ▸ h2'
          simp [setKey, getVal, h1, h2, h2', hkv, ih]
      · by_cases h2 : kv.1 = k
        · have h3 : k ≠ k2 := fun he => h1 (h2.trans he)
          simp [setKey, getVal, h1, h2, h3]
        · simp [setKey, getVal, h1, h2, ih]

theorem getVal_eraseKey (cfg : Cfg) (k k2 : String) :
    getVal (eraseKey cfg k2) k = if k = k2 then Option.none else getVal cfg k := by
  induction cfg with
  | nil => by_cases h : k = k2 <;> simp [eraseKey, getVal, h]
  | cons kv rest ih =>
      by_cases h1 : kv.1 = k2
      · by_cases h2 : k = k2
        · subst h2; simp [eraseKey, getVal, h1, ih]
        · have h2' : k2 ≠ k := fun he => h2 he.symm
          have hkv : kv.1 ≠ k := fun he => h2 ((he.symm.trans h1 : k = k2))
          simp [eraseKey, getVal, h1, h2, h2', hkv, ih]
      · by_cases h2 : kv.1 = k
        · have h3 : k ≠ k2 := fun he => h1 (h2.trans he)
          simp [eraseKey, getVal, h1, h2, h3]
        · simp [eraseKey, getVal, h1, h2, ih]

theorem isSome_getVal_setKey (cfg : Cfg) (k k2 : String) (v : PyVal) :
    (getVal (setKey cfg k2 v) k).isSome = (getVal cfg k).isSome := by
  rw [getVal_setKey]
  by_cases h : k = k2 <;> simp [h]

theorem isSome_getVal_blankToNone (cfg : Cfg) (k : String) :
    (getVal (blankToNone cfg) k).isSome = (getVal cfg k).isSome := by
  rw [getVal_blankToNone]; simp

theorem delKey_eq_ok {cfg : Cfg} {k : String} (h : (getVal cfg k).isSome = true) :
    delKey cfg k = .ok (eraseKey cfg k) := by
  simp [delKey, h]

theorem delKey_ok_inv {cfg out : Cfg} {k : String} (h : delKey cfg k = .ok out) :
    out = eraseKey cfg k := by
  unfold delKey at h
  by_cases hs : (getVal cfg k).isSome = true
  · rw [if_pos hs] at h; exact (Except.ok.inj h).symm
  · rw [if_neg hs] at h; exact Except.noConfusion h

theorem exceptBind_ok {α β : Type} {a : Except PyErr α} {f : α → Except PyErr β}
    {b : β} (h : (a >>= f) = .ok b) : ∃ x, a = .ok x ∧ f x = .ok b := by
  cases a with
  | error e => simp [Bind.bind, Except.bind] at h
  | ok x => exact ⟨x, rfl, by simpa [Bind.bind, Except.bind] using h⟩

theorem convertStep_ok {cfg out : Cfg} {k : String}
    {f : PyVal → Except PyErr PyVal} (h : convertStep cfg k f = .ok out) :
    ∃ v w, getVal cfg k = some v ∧ f v = .ok w ∧ out = setKey cfg k w := by
  unfold convertStep at h
  split at h
  · exact Except.noConfusion h
  · rename_i v hv
    split at h
    · exact Except.noConfusion h
    · rename_i w hw
      exact ⟨v, w, hv, hw, (Except.ok.inj h).symm⟩

theorem convertStep_preserves_other {cfg out : Cfg} {k k2 : String}
    {f : PyVal → Except PyErr PyVal} {v : PyVal} (hne : k ≠ k2)
    (hk : getVal cfg k = some v) (h : convertStep cfg k2 f = .ok out) :
    getVal out k = some v := by
  obtain ⟨x, w, _, _, rfl⟩ := convertStep_ok h
  rw [getVal_setKey, if_neg hne]; exact hk

theorem convertStep_preserves_none {cfg out : Cfg} {k k2 : String}
    {f : PyVal → Except PyErr PyVal}
    (hk : getVal cfg k = some PyVal.none) (h : convertStep cfg k2 f = .ok out)
    (hf : f PyVal.none = .ok PyVal.none) :
    getVal out k = some PyVal.none := by
  obtain ⟨x, w, hv, hw, rfl⟩ := convertStep_ok h
  rw [getVal_setKey]
  by_cases he : k = k2
  · subst he
    rw [hk] at hv
    have hx : x = PyVal.none := (Option.some.inj hv).symm
    subst hx
    rw [hf] at hw
    have hwn : PyVal.none = w := Except.ok.inj hw
    subst hwn
    simp [hk]
  · rw [if_neg he]; exact hk

theorem convertStep_isSome {cfg out : Cfg} {k2 : String}
    {f : PyVal → Except PyErr PyVal} (h : convertStep cfg k2 f = .ok out) (k : String) :
    (getVal out k).isSome = (getVal cfg k).isSome := by
  obtain ⟨x, w, _, _, rfl⟩ := convertStep_ok h
  exact isSome_getVal_setKey cfg k k2 w

theorem normalizeParams_ok {cfg bundle : Cfg} (h : normalizeParams cfg = .ok bundle) :
    ∃ c1 c2 c3 c4,
      convertStep (blankToNone cfg) "param_baseline" normalizeBaseline = .ok c1 ∧
      convertStep c1 "param_picks_by_channel_indices" normalizePicksIdx = .ok c2 ∧
      convertStep c2 "param_picks_by_channel_types_or_names"
        (fun v => .ok (normalizePicksNames v)) = .ok c3 ∧
      convertStep c3 "param_event_id" normalizeEventId = .ok c4 ∧
      stripPlatform c4 = .ok bundle := by
  unfold normalizeParams at h
  obtain ⟨c1, h1, h⟩ := exceptBind_ok h
  obtain ⟨c2, h2, h⟩ := exceptBind_ok h
  obtain ⟨c3, h3, h⟩ := exceptBind_ok h
  obtain ⟨c4, h4, h⟩ := exceptBind_ok h
  exact ⟨c1, c2, c3, c4, h1, h2, h3, h4, h⟩

theorem stripPlatform_ok_outputs {cfg out : Cfg}
    (hO : (getVal cfg "_outputs").isSome = true) (h : stripPlatform cfg = .ok out) :
    out = eraseKey (eraseKey (eraseKey (eraseKey cfg "_app") "_tid") "_inputs") "_outputs" := by
  unfold stripPlatform at h
  rw [if_pos hO] at h
  obtain ⟨c1, h1, h⟩ := exceptBind_ok h
  obtain ⟨c2, h2, h⟩ := exceptBind_ok h
  obtain ⟨c3, h3, h⟩ := exceptBind_ok h
  rw [delKey_ok_inv h1] at h2
  rw [delKey_ok_inv h2] at h3
  rw [delKey_ok_inv h3] at h
  exact delKey_ok_inv h

theorem stripPlatform_ok_getVal {cfg out : Cfg} {k : String}
    (h : stripPlatform cfg = .ok out)
    (hk : k ∉ (["_app", "_tid", "_inputs", "_outputs"] : List String)) :
    getVal out k = getVal cfg k := by
  simp only [List.mem_cons, List.not_mem_nil, or_false, not_or] at hk
  obtain ⟨hk1, hk2, hk3, hk4⟩ := hk
  by_cases hO : (getVal cfg "_outputs").isSome = true
  · rw [stripPlatform_ok_outputs hO h]
    rw [getVal_eraseKey, if_neg hk4, getVal_eraseKey, if_neg hk3,
        getVal_eraseKey, if_neg hk2, getVal_eraseKey, if_neg hk1]
  · unfold stripPlatform at h
    rw [if_neg hO] at h
    rw [← Except.ok.inj h]

theorem blankVal_eq_self {v : PyVal} (h : v ≠ .str "") : blankVal v = v := by
  cases v with
  | str s =>
      have hs : s ≠ "" := fun he => h (by rw [he])
      simp [blankVal, hs]
  | none => rfl
  | bool b => rfl
  | int n => rfl
  | float q => rfl
  | list xs => rfl
  | tuple xs => rfl
  | slice a b c => rfl

theorem eq_none_of_isSome_false {o : Option PyVal} (h : o.isSome = false) :
    o = Option.none := by
  cases o with
  | none => rfl
  | some v => simp at h

theorem isSome_getVal_eraseKey_ne {cfg : Cfg} {k k2 : String} (hne : k ≠ k2)
    (h : (getVal cfg k).isSome = true) :
    (getVal (eraseKey cfg k2) k).isSome = true := by
  rw [getVal_eraseKey, if_neg hne]; exact h

theorem mem_ite_singleton {x y : String} {c : Bool}
    (h : x ∈ (if c = true then [y] else ([] : List String))) : x = y := by
  by_cases hc : c = true
  · rw [if_pos hc] at h; exact List.mem_singleton.mp h
  · rw [if_neg hc] at h; exact absurd h (List.not_mem_nil x)

/-- Any file written by the copy steps of lines 137-157 is one of the five
fixed copy destinations. -/
theorem mem_copy_writes {x : String} {fs : FS}
    (hx : x ∈ ["out_dir_make_epochs/events.tsv"]
        ++ (if fs.crosstalkExists = true then ["out_dir_make_epochs/crosstalk_meg.fif"] else [])
        ++ (if fs.calibrationExists = true then ["out_dir_make_epochs/calibration_meg.dat"] else [])
        ++ (if fs.destinationExists = true then ["out_dir_make_epochs/destination.fif"] else [])
        ++ (if fs.headshapeExists = true then ["out_dir_make_epochs/headshape.pos"] else [])) :
    x = "out_dir_make_epochs/events.tsv" ∨ x = "out_dir_make_epochs/crosstalk_meg.fif" ∨
    x = "out_dir_make_epochs/calibration_meg.dat" ∨ x = "out_dir_make_epochs/destination.fif" ∨
    x = "out_dir_make_epochs/headshape.pos" := by
  simp only [List.mem_append] at hx
  rcases hx with ((((h | h) | h) | h) | h)
  · exact Or.inl (List.mem_singleton.mp h)
  · exact Or.inr (Or.inl (mem_ite_singleton h))
  · exact Or.inr (Or.inr (Or.inl (mem_ite_singleton h)))
  · exact Or.inr (Or.inr (Or.inr (Or.inl (mem_ite_singleton h))))
  · exact Or.inr (Or.inr (Or.inr (Or.inr (mem_ite_singleton h))))

/-- One row of the tabular events description of spec §3: a sample offset and
an event code. -/
structure EventsRow where
  sample : Int
  value : Int

/-- Modelled from the spec: the events-matrix builder of §4.2,
`build_events_matrix(first_sample_offset, table)`, is not present in this
revision of `src/make_epochs.py` (line 97 loads an already-built matrix with
`np.loadtxt`); following the words of the spec, for each row i of the table,
in order, it emits the row
`(first_sample_offset + table[i].sample, 0, table[i].value)`. -/
def build_events_matrix (first_sample_offset : Int) (table : List EventsRow) :
    List (Int × Int × Int) :=
  table.map (fun r => (first_sample_offset + r.sample, 0, r.value))

example : splitCommaSpace "0, 10, 2".toList = ["0".toList, "10".toList, "2".toList] := rfl
example : splitCommaSpace "0,5".toList = ["0,5".toList] := rfl
example : pyInt "10".toList = .ok 10 := rfl
example : pyInt "-3".toList = .ok (-3) := rfl
example : pyInt "0,5".toList = .error .intParse := rfl
example : stripBrackets "[1, 2, 5]".toList = "1, 2, 5".toList := rfl

/-- C1: for every pair of channel-selection values reaching `make_epochs`
(lines 81-94), if both are non-None the call fails with the ValidationError
`pickBothSet`; if exactly one is non-None it becomes the single effective
picks value; if both are None the effective picks value is None. -/
theorem picks_mutual_exclusion (names idx : PyVal) :
    (names.isNone = false → idx.isNone = false →
      definePicks names idx = .error .pickBothSet) ∧
    (names.isNone = true → idx.isNone = false → definePicks names idx = .ok idx) ∧
    (names.isNone = false → idx.isNone = true → definePicks names idx = .ok names) ∧
    (names.isNone = true → idx.isNone = true → definePicks names idx = .ok PyVal.none) := by
  refine ⟨?_, ?_, ?_, ?_⟩ <;> intro h1 h2 <;> simp [definePicks, h1, h2]

/-- Witness for C1: a concrete pair with both selections non-None fails with
the ValidationError, and concrete single-selection pairs pass the value on. -/
theorem picks_mutual_exclusion_witness :
    (PyVal.isNone (.list [.str "meg"]) = false ∧
      definePicks (.list [.str "meg"]) (.slice 0 5 Option.none) = .error .pickBothSet) ∧
    definePicks PyVal.none (.slice 0 5 Option.none) = .ok (.slice 0 5 Option.none) ∧
    definePicks PyVal.none PyVal.none = .ok PyVal.none :=
  ⟨⟨rfl, (picks_mutual_exclusion (.list [.str "meg"]) (.slice 0 5 Option.none)).1 rfl rfl⟩,
   (picks_mutual_exclusion PyVal.none (.slice 0 5 Option.none)).2.1 rfl rfl,
   (picks_mutual_exclusion PyVal.none PyVal.none).2.2.2 rfl rfl⟩

/-- C2: the events-matrix builder is order-preserving and length-preserving:
for a table of n rows the matrix has exactly n rows, and row i is
`(first_sample_offset + table[i].sample, 0, table[i].value)`; no row is
filtered, deduplicated or rejected. -/
theorem events_matrix_rows (first_sample_offset : Int) (table : List EventsRow) :
    (build_events_matrix first_sample_offset table).length = table.length ∧
    ∀ i r, table.get? i = some r →
      (build_events_matrix first_sample_offset table).get? i =
        some (first_sample_offset + r.sample, 0, r.value) := by
  constructor
  · simp [build_events_matrix]
  · intro i r hr
    rw [List.get?_eq_getElem?] at hr ⊢
    rw [build_events_matrix, List.getElem?_map, hr]
    rfl

/-- Witness for C2 on a concrete two-row table. -/
theorem events_matrix_rows_witness :
    (build_events_matrix 10 [⟨5, 1⟩, ⟨7, 2⟩]).length = 2 ∧
    (build_events_matrix 10 [⟨5, 1⟩, ⟨7, 2⟩]).get? 0 = some (15, 0, 1) ∧
    (build_events_matrix 10 [⟨5, 1⟩, ⟨7, 2⟩]).get? 1 = some (17, 0, 2) :=
  ⟨(events_matrix_rows 10 [⟨5, 1⟩, ⟨7, 2⟩]).1,
   (events_matrix_rows 10 [⟨5, 1⟩, ⟨7, 2⟩]).2 0 ⟨5, 1⟩ rfl,
   (events_matrix_rows 10 [⟨5, 1⟩, ⟨7, 2⟩]).2 1 ⟨7, 2⟩ rfl⟩

/-- C3 (code bug): line 203-204 applies `tuple(...)` to every non-None raw
baseline before the string branch of lines 213-218 is tested, so the Brainlife
form value "None, 0" is turned into the tuple of its seven characters instead
of the pair (None, 0.0) the claim and the docstring (tuple of length 2)
describe.  List-valued and pair-valued baselines are converted as claimed. -/
theorem baseline_string_bug :
    normalizeBaseline (.str "None, 0") =
      .ok (.tuple [.str "N", .str "o", .str "n", .str "e", .str ",", .str " ",
                   .str "0"]) ∧
    normalizeBaseline (.list [PyVal.none, .int 0]) = .ok (.tuple [PyVal.none, .int 0]) ∧
    normalizeBaseline (.tuple [PyVal.none, .int 0]) = .ok (.tuple [PyVal.none, .int 0]) :=
  ⟨rfl, rfl, rfl⟩

/-- C7 (code bug): the event-id conversion (lines 253-261) parses a bracketed
string into a list of integers and a plain string into an integer and passes
None through, as claimed; but an already-typed non-string value (an int, which
the docstring allows) does not pass through: line 256 calls `.find` on it and
raises AttributeError. -/
theorem event_id_typed_value_crash :
    normalizeEventId (.int 5) = .error .attrError ∧
    normalizeEventId (.str "[1, 2]") = .ok (.list [.int 1, .int 2]) ∧
    normalizeEventId (.str "5") = .ok (.int 5) ∧
    normalizeEventId PyVal.none = .ok PyVal.none :=
  ⟨rfl, rfl, rfl, rfl⟩

/-- C4: for an index-selection string with a comma and no bracket, the code
splits on comma-space, parses integer tokens, and builds a slice from 2 tokens
(start, stop: the half-open index range) or 3 tokens (start, stop, step),
failing with the ValidationError `sliceArity` at any other token count; for a
string with a comma and brackets it strips the brackets and parses a list of
integers.  Concretely, "0, 10" gives slice(0, 10), whose selected indices are
the half-open range 0..9; "0, 10, 2" gives the same range stepped by 2; and
"[1, 2, 5]" gives the list [1, 2, 5]. -/
theorem picks_indices_conversion :
    (∀ (s : String) (a b : Int),
        s.toList.contains ',' = true → s.toList.contains '[' = false →
        (splitCommaSpace s.toList).mapM pyInt = .ok [a, b] →
        normalizePicksIdx (.str s) = .ok (.slice a b Option.none)) ∧
    (∀ (s : String) (a b c : Int),
        s.toList.contains ',' = true → s.toList.contains '[' = false →
        (splitCommaSpace s.toList).mapM pyInt = .ok [a, b, c] →
        normalizePicksIdx (.str s) = .ok (.slice a b (some c))) ∧
    (∀ (s : String) (ns : List Int),
        s.toList.contains ',' = true → s.toList.contains '[' = false →
        (splitCommaSpace s.toList).mapM pyInt = .ok ns →
        ns.length ≠ 2 → ns.length ≠ 3 →
        normalizePicksIdx (.str s) = .error .sliceArity) ∧
    (∀ (s : String),
        s.toList.contains ',' = true → s.toList.contains '[' = true →
        normalizePicksIdx (.str s) =
          Except.map (fun ns => .list (ns.map PyVal.int))
            ((splitCommaSpace (stripBrackets s.toList)).mapM pyInt)) ∧
    (normalizePicksIdx (.str "0, 10") = .ok (.slice 0 10 Option.none) ∧
     sliceIndices 0 10 1 = (List.range 10).map Int.ofNat ∧
     normalizePicksIdx (.str "0, 10, 2") = .ok (.slice 0 10 (some 2)) ∧
     sliceIndices 0 10 2 = [0, 2, 4, 6, 8] ∧
     normalizePicksIdx (.str "[1, 2, 5]") = .ok (.list [.int 1, .int 2, .int 5])) := by
  refine ⟨?_, ?_, ?_, ?_, rfl, by decide, rfl, by decide, rfl⟩
  · intro s a b h1 h2 h3
    have h1' : ',' ∈ s.data := by simpa using h1
    have h2' : '[' ∉ s.data := by simpa using h2
    simp only [List.mapM] at h3
    have h3' : List.mapM.loop pyInt (splitCommaSpace s.data) [] = Except.ok [a, b] := h3
    simp [normalizePicksIdx, h1', h2', h3']
  · intro s a b c h1 h2 h3
    have h1' : ',' ∈ s.data := by simpa using h1
    have h2' : '[' ∉ s.data := by simpa using h2
    simp only [List.mapM] at h3
    have h3' : List.mapM.loop pyInt (splitCommaSpace s.data) [] = Except.ok [a, b, c] := h3
    simp [normalizePicksIdx, h1', h2', h3']
  · intro s ns h1 h2 h3 h4 h5
    have h1' : ',' ∈ s.data := by simpa using h1
    have h2' : '[' ∉ s.data := by simpa using h2
    simp only [List.mapM] at h3
    have h3' : List.mapM.loop pyInt (splitCommaSpace s.data) [] = Except.ok ns := h3
    rcases ns with _ | ⟨a, _ | ⟨b, _ | ⟨c, _ | ⟨d, t⟩⟩⟩⟩
    · simp [normalizePicksIdx, h1', h2', h3']
    · simp [normalizePicksIdx, h1', h2', h3']
    · exact absurd rfl h4
    · exact absurd rfl h5
    · simp [normalizePicksIdx, h1', h2', h3']
  · intro s h1 h2
    have h1' : ',' ∈ s.data := by simpa using h1
    have h2' : '[' ∈ s.data := by simpa using h2
    cases hm : (splitCommaSpace (stripBrackets s.toList)).mapM pyInt with
    | error e =>
        simp only [List.mapM] at hm
        have hm' : List.mapM.loop pyInt (splitCommaSpace (stripBrackets s.data)) [] =
            Except.error e := hm
        simp [normalizePicksIdx, h1', h2', hm', Except.map, List.mapM]
    | ok ns =>
        simp only [List.mapM] at hm
        have hm' : List.mapM.loop pyInt (splitCommaSpace (stripBrackets s.data)) [] =
            Except.ok ns := hm
        simp [normalizePicksIdx, h1', h2', hm', Except.map, List.mapM]

/-- Witness for C4 at concrete inputs of each hypothesis-guarded shape. -/
theorem picks_indices_conversion_witness :
    normalizePicksIdx (.str "7, 9") = .ok (.slice 7 9 Option.none) ∧
    normalizePicksIdx (.str "1, 9, 4") = .ok (.slice 1 9 (some 4)) ∧
    normalizePicksIdx (.str "1, 2, 3, 4") = .error .sliceArity ∧
    normalizePicksIdx (.str "[3, 8]") =
      Except.map (fun ns => .list (ns.map PyVal.int))
        ((splitCommaSpace (stripBrackets "[3, 8]".toList)).mapM pyInt) :=
  ⟨picks_indices_conversion.1 "7, 9" 7 9 rfl rfl rfl,
   picks_indices_conversion.2.1 "1, 9, 4" 1 9 4 rfl rfl rfl,
   picks_indices_conversion.2.2.1 "1, 2, 3, 4" [1, 2, 3, 4] rfl rfl rfl
     (by decide) (by decide),
   picks_indices_conversion.2.2.2.1 "[3, 8]" rfl rfl⟩

/-- C10 (implicit): an index-selection string without a comma — such as the
single-element bracketed string "[5]" — matches neither conversion branch of
lines 226-243 and is passed through to the parameter bundle unchanged, still
as a string. -/
theorem picks_indices_no_comma_passthrough :
    (∀ (s : String), s.toList.contains ',' = false →
        normalizePicksIdx (.str s) = .ok (.str s)) ∧
    normalizePicksIdx (.str "[5]") = .ok (.str "[5]") ∧
    (∃ bundle,
      normalizeParams
        [("param_baseline", PyVal.none), ("param_picks_by_channel_indices", .str "[5]"),
         ("param_picks_by_channel_types_or_names", PyVal.none),
         ("param_event_id", PyVal.none)] = .ok bundle ∧
      getVal bundle "param_picks_by_channel_indices" = some (.str "[5]")) := by
  refine ⟨?_, rfl, ⟨_, rfl, rfl⟩⟩
  intro s h
  have h' : ',' ∉ s.data := by simpa using h
  simp [normalizePicksIdx, h']

/-- Witness for C10 at a concrete comma-free string. -/
theorem picks_indices_no_comma_passthrough_witness :
    ("[2]".toList.contains ',' = false) ∧
    normalizePicksIdx (.str "[2]") = .ok (.str "[2]") :=
  ⟨rfl, picks_indices_no_comma_passthrough.1 "[2]" rfl⟩

/-- C5: any configuration entry whose raw value is the empty string is mapped
to None by lines 160-161, and the corresponding field of the resulting keyword
bundle is None (every converter maps None to None, and only the four reserved
platform keys are removed from the bundle). -/
theorem empty_string_becomes_none (cfg bundle : Cfg) (k : String)
    (hv : getVal cfg k = some (.str ""))
    (hk : k ∉ (["_app", "_tid", "_inputs", "_outputs"] : List String))
    (hb : normalizeParams cfg = .ok bundle) :
    getVal bundle k = some PyVal.none := by
  obtain ⟨c1, c2, c3, c4, h1, h2, h3, h4, h5⟩ := normalizeParams_ok hb
  have h0 : getVal (blankToNone cfg) k = some PyVal.none := by
    rw [getVal_blankToNone, hv]; rfl
  have g1 := convertStep_preserves_none h0 h1 rfl
  have g2 := convertStep_preserves_none g1 h2 rfl
  have g3 := convertStep_preserves_none g2 h3 rfl
  have g4 := convertStep_preserves_none g3 h4 rfl
  rw [stripPlatform_ok_getVal h5 hk]
  exact g4

/-- Witness for C5: a concrete configuration with `param_tmin` set to the
empty string normalizes to a bundle whose `param_tmin` field is None. -/
theorem empty_string_becomes_none_witness :
    getVal [("param_baseline", PyVal.none), ("param_picks_by_channel_indices", PyVal.none),
            ("param_picks_by_channel_types_or_names", PyVal.none),
            ("param_event_id", PyVal.none), ("param_tmin", PyVal.none)] "param_tmin" =
      some PyVal.none :=
  empty_string_becomes_none
    [("param_baseline", PyVal.none), ("param_picks_by_channel_indices", PyVal.none),
     ("param_picks_by_channel_types_or_names", PyVal.none),
     ("param_event_id", PyVal.none), ("param_tmin", .str "")]
    [("param_baseline", PyVal.none), ("param_picks_by_channel_indices", PyVal.none),
     ("param_picks_by_channel_types_or_names", PyVal.none),
     ("param_event_id", PyVal.none), ("param_tmin", PyVal.none)]
    "param_tmin" rfl (by decide) rfl

/-- Concrete configuration for C6: `param_proj` carries the Brainlife form
string "True"; all converted parameters are None. -/
def cfgProj : Cfg :=
  [("param_event_id", PyVal.none), ("param_baseline", PyVal.none),
   ("param_picks_by_channel_types_or_names", PyVal.none),
   ("param_picks_by_channel_indices", PyVal.none), ("param_proj", .str "True")]

/-- C6 counterexample: the string-to-boolean conversion of `param_proj` is
commented out (lines 220-224), so normalization leaves the string "True" in
the bundle; it does not become the boolean true. -/
theorem proj_string_not_converted :
    normalizeParams cfgProj = .ok cfgProj ∧
    getVal cfgProj "param_proj" = some (.str "True") ∧
    PyVal.str "True" ≠ PyVal.bool true :=
  ⟨rfl, rfl, fun h => PyVal.noConfusion h⟩

/-- C6 amended: normalization passes every non-empty `param_proj` value
through to the bundle unchanged (strings included); only the generic
empty-string rule of lines 160-161 applies to it. -/
theorem proj_passthrough (cfg bundle : Cfg) (v : PyVal)
    (hv : getVal cfg "param_proj" = some v) (hne : v ≠ .str "")
    (hb : normalizeParams cfg = .ok bundle) :
    getVal bundle "param_proj" = some v := by
  obtain ⟨c1, c2, c3, c4, h1, h2, h3, h4, h5⟩ := normalizeParams_ok hb
  have h0 : getVal (blankToNone cfg) "param_proj" = some v := by
    rw [getVal_blankToNone, hv]
    simp [blankVal_eq_self hne]
  have g1 := convertStep_preserves_other (by decide) h0 h1
  have g2 := convertStep_preserves_other (by decide) g1 h2
  have g3 := convertStep_preserves_other (by decide) g2 h3
  have g4 := convertStep_preserves_other (by decide) g3 h4
  rw [stripPlatform_ok_getVal h5 (by decide)]
  exact g4

/-- Witness for C6 (amended theorem) at the concrete configuration. -/
theorem proj_passthrough_witness :
    getVal cfgProj "param_proj" = some (.str "True") :=
  proj_passthrough cfgProj cfgProj (.str "True") rfl
    (fun h => absurd (PyVal.str.inj h) (by decide)) rfl

/-- C9: for every input configuration document — one that carries the four
reserved platform keys (a Brainlife run), or one that carries none of them (a
local run) — the keys `_app`, `_tid`, `_inputs`, `_outputs` are absent from
the keyword bundle that normalization builds and forwards to the segmentation
call. -/
theorem platform_keys_stripped (cfg bundle : Cfg)
    (hPlat : ((getVal cfg "_app").isSome = true ∧ (getVal cfg "_tid").isSome = true ∧
              (getVal cfg "_inputs").isSome = true ∧
              (getVal cfg "_outputs").isSome = true) ∨
             (getVal cfg "_app" = Option.none ∧ getVal cfg "_tid" = Option.none ∧
              getVal cfg "_inputs" = Option.none ∧ getVal cfg "_outputs" = Option.none))
    (hb : normalizeParams cfg = .ok bundle) :
    getVal bundle "_app" = Option.none ∧ getVal bundle "_tid" = Option.none ∧
    getVal bundle "_inputs" = Option.none ∧ getVal bundle "_outputs" = Option.none := by
  obtain ⟨c1, c2, c3, c4, h1, h2, h3, h4, h5⟩ := normalizeParams_ok hb
  have hpres : ∀ k, (getVal c4 k).isSome = (getVal cfg k).isSome := by
    intro k
    rw [convertStep_isSome h4 k, convertStep_isSome h3 k, convertStep_isSome h2 k,
        convertStep_isSome h1 k, isSome_getVal_blankToNone]
  rcases hPlat with ⟨hA, hT, hI, hO⟩ | ⟨hA, hT, hI, hO⟩
  · have hO4 : (getVal c4 "_outputs").isSome = true := by rw [hpres]; exact hO
    rw [stripPlatform_ok_outputs hO4 h5]
    refine ⟨?_, ?_, ?_, ?_⟩ <;> simp [getVal_eraseKey]
  · have hO4 : (getVal c4 "_outputs").isSome = false := by rw [hpres, hO]; rfl
    have hstrip : bundle = c4 := by
      unfold stripPlatform at h5
      rw [if_neg (by simp [hO4])] at h5
      exact (Except.ok.inj h5).symm
    subst hstrip
    refine ⟨?_, ?_, ?_, ?_⟩
    · exact eq_none_of_isSome_false (by rw [hpres, hA]; rfl)
    · exact eq_none_of_isSome_false (by rw [hpres, hT]; rfl)
    · exact eq_none_of_isSome_false (by rw [hpres, hI]; rfl)
    · exact eq_none_of_isSome_false (by rw [hpres, hO]; rfl)

/-- Witness for C9 on a concrete Brainlife-style configuration carrying all
four platform keys: none of them survives into the bundle. -/
theorem platform_keys_stripped_witness :
    getVal [("param_baseline", PyVal.none), ("param_picks_by_channel_indices", PyVal.none),
            ("param_picks_by_channel_types_or_names", PyVal.none),
            ("param_event_id", PyVal.none)] "_app" = Option.none ∧
    getVal [("param_baseline", PyVal.none), ("param_picks_by_channel_indices", PyVal.none),
            ("param_picks_by_channel_types_or_names", PyVal.none),
            ("param_event_id", PyVal.none)] "_tid" = Option.none ∧
    getVal [("param_baseline", PyVal.none), ("param_picks_by_channel_indices", PyVal.none),
            ("param_picks_by_channel_types_or_names", PyVal.none),
            ("param_event_id", PyVal.none)] "_inputs" = Option.none ∧
    getVal [("param_baseline", PyVal.none), ("param_picks_by_channel_indices", PyVal.none),
            ("param_picks_by_channel_types_or_names", PyVal.none),
            ("param_event_id", PyVal.none)] "_outputs" = Option.none :=
  platform_keys_stripped
    [("param_baseline", PyVal.none), ("param_picks_by_channel_indices", PyVal.none),
     ("param_picks_by_channel_types_or_names", PyVal.none), ("param_event_id", PyVal.none),
     ("_app", .str "a"), ("_tid", .str "t"), ("_inputs", .str "i"), ("_outputs", .str "o")]
    [("param_baseline", PyVal.none), ("param_picks_by_channel_indices", PyVal.none),
     ("param_picks_by_channel_types_or_names", PyVal.none), ("param_event_id", PyVal.none)]
    (Or.inl ⟨rfl, rfl, rfl, rfl⟩) rfl

/-- Concrete configuration for C8: all six input paths and all eighteen
required parameters, with both pick parameters set. -/
def cfgBothPicks : Cfg :=
  [("fif", .str "meg.fif"), ("events", .str "events.tsv"), ("crosstalk", .str "ct.fif"),
   ("calibration", .str "cal.dat"), ("destination", .str "dest.fif"),
   ("headshape", .str "hs.pos"),
   ("param_event_id", PyVal.none), ("param_tmin", PyVal.none), ("param_tmax", PyVal.none),
   ("param_baseline", PyVal.none),
   ("param_picks_by_channel_types_or_names", .str "[meg]"),
   ("param_picks_by_channel_indices", .str "0, 5"),
   ("param_preload", PyVal.none), ("param_reject", PyVal.none), ("param_flat", PyVal.none),
   ("param_proj", PyVal.none), ("param_decim", PyVal.none),
   ("param_reject_tmin", PyVal.none), ("param_reject_tmax", PyVal.none),
   ("param_detrend", PyVal.none), ("param_on_missing", PyVal.none),
   ("param_reject_by_annotation", PyVal.none), ("param_metadata", PyVal.none),
   ("param_event_repeated", PyVal.none)]

/-- The keyword bundle `normalizeParams` produces from `cfgBothPicks` after the
input-path pops: both pick parameters converted and non-None, all other
parameters None, and the binding against the `make_epochs` signature exact. -/
def bundleBothPicks : Cfg :=
  [("param_event_id", PyVal.none), ("param_tmin", PyVal.none), ("param_tmax", PyVal.none),
   ("param_baseline", PyVal.none),
   ("param_picks_by_channel_types_or_names", .list [.str "meg"]),
   ("param_picks_by_channel_indices", .slice 0 5 Option.none),
   ("param_preload", PyVal.none), ("param_reject", PyVal.none), ("param_flat", PyVal.none),
   ("param_proj", PyVal.none), ("param_decim", PyVal.none),
   ("param_reject_tmin", PyVal.none), ("param_reject_tmax", PyVal.none),
   ("param_detrend", PyVal.none), ("param_on_missing", PyVal.none),
   ("param_reject_by_annotation", PyVal.none), ("param_metadata", PyVal.none),
   ("param_event_repeated", PyVal.none)]

/-- File system for C8: the events file exists, the auxiliary files do not. -/
def fsEventsOnly : FS := ⟨true, false, false, false, false⟩

/-- C8 counterexample: with both pick parameters set and the events file
present, the run writes the events-file copy (line 137) and only then raises
the ValidationError inside `make_epochs`, so the error is raised after an
output file has already been produced — not before any output file. -/
theorem validation_error_after_copies :
    runMain cfgBothPicks fsEventsOnly =
      ⟨["out_dir_make_epochs/events.tsv"], .error .pickBothSet⟩ ∧
    (runMain cfgBothPicks fsEventsOnly).writes ≠ [] :=
  ⟨rfl, fun h => List.noConfusion h⟩

/-- C8 amended: a configuration whose normalized bundle has both pick
parameters non-None — and whose bundle binds cleanly against the
`make_epochs` signature, so that the keyword TypeError of line 274 does not
pre-empt the pick check — makes the run fail with the ValidationError
`pickBothSet`, and neither the segmented-data file nor the status document is
written; the copies of the events file and of the present auxiliary files
(lines 137-157), however, have already been produced by then. -/
theorem validation_error_before_data_outputs (cfg bundle : Cfg) (fs : FS) (va vb : PyVal)
    (hFif : (getVal cfg "fif").isSome = true)
    (hEv : (getVal cfg "events").isSome = true)
    (hCt : (getVal cfg "crosstalk").isSome = true)
    (hCal : (getVal cfg "calibration").isSome = true)
    (hDest : (getVal cfg "destination").isSome = true)
    (hHead : (getVal cfg "headshape").isSome = true)
    (hfs : fs.eventsExists = true)
    (hb : normalizeParams (popInputKeys cfg) = .ok bundle)
    (hbind : bindKwargs bundle = true)
    (hva : getVal bundle "param_picks_by_channel_types_or_names" = some va)
    (hvb : getVal bundle "param_picks_by_channel_indices" = some vb)
    (hna : va.isNone = false) (hnb : vb.isNone = false) :
    (runMain cfg fs).outcome = .error .pickBothSet ∧
    "out_dir_make_epochs/meg.fif" ∉ (runMain cfg fs).writes ∧
    "product.json" ∉ (runMain cfg fs).writes := by
  have iEv : (getVal (eraseKey cfg "fif") "events").isSome = true :=
    isSome_getVal_eraseKey_ne (by decide) hEv
  have iCt : (getVal (eraseKey (eraseKey cfg "fif") "events") "crosstalk").isSome = true :=
    isSome_getVal_eraseKey_ne (by decide) (isSome_getVal_eraseKey_ne (by decide) hCt)
  have iCal : (getVal (eraseKey (eraseKey (eraseKey cfg "fif") "events") "crosstalk")
      "calibration").isSome = true :=
    isSome_getVal_eraseKey_ne (by decide) (isSome_getVal_eraseKey_ne (by decide)
      (isSome_getVal_eraseKey_ne (by decide) hCal))
  have iDest : (getVal (eraseKey (eraseKey (eraseKey (eraseKey cfg "fif") "events")
      "crosstalk") "calibration") "destination").isSome = true :=
    isSome_getVal_eraseKey_ne (by decide) (isSome_getVal_eraseKey_ne (by decide)
      (isSome_getVal_eraseKey_ne (by decide) (isSome_getVal_eraseKey_ne (by decide) hDest)))
  have iHead : (getVal (eraseKey (eraseKey (eraseKey (eraseKey (eraseKey cfg "fif")
      "events") "crosstalk") "calibration") "destination") "headshape").isSome = true :=
    isSome_getVal_eraseKey_ne (by decide) (isSome_getVal_eraseKey_ne (by decide)
      (isSome_getVal_eraseKey_ne (by decide) (isSome_getVal_eraseKey_ne (by decide)
        (isSome_getVal_eraseKey_ne (by decide) hHead))))
  have e1 := delKey_eq_ok hFif
  have e2 := delKey_eq_ok iEv
  have e3 := delKey_eq_ok iCt
  have e4 := delKey_eq_ok iCal
  have e5 := delKey_eq_ok iDest
  have e6 := delKey_eq_ok iHead
  have hdp : definePicks va vb = .error .pickBothSet := by
    simp [definePicks, hna, hnb]
  have hb' : normalizeParams
      (eraseKey (eraseKey (eraseKey (eraseKey (eraseKey (eraseKey cfg "fif") "events")
        "crosstalk") "calibration") "destination") "headshape") = .ok bundle := hb
  have hrun : runMain cfg fs =
      ⟨["out_dir_make_epochs/events.tsv"]
        ++ (if fs.crosstalkExists = true then ["out_dir_make_epochs/crosstalk_meg.fif"] else [])
        ++ (if fs.calibrationExists = true then ["out_dir_make_epochs/calibration_meg.dat"] else [])
        ++ (if fs.destinationExists = true then ["out_dir_make_epochs/destination.fif"] else [])
        ++ (if fs.headshapeExists = true then ["out_dir_make_epochs/headshape.pos"] else []),
       .error .pickBothSet⟩ := by
    simp only [runMain, e1, e2, e3, e4, e5, e6, runStep, hfs, hb', hbind, hva, hvb,
      Option.getD_some, hdp, Except.map, Bool.true_eq_false, if_false]
  refine ⟨?_, ?_, ?_⟩
  · rw [hrun]
  · rw [hrun]
    intro hmem
    rcases mem_copy_writes hmem with h | h | h | h | h <;> exact absurd h (by decide)
  · rw [hrun]
    intro hmem
    rcases mem_copy_writes hmem with h | h | h | h | h <;> exact absurd h (by decide)

/-- Witness for C8 (amended theorem) at the concrete configuration. -/
theorem validation_error_before_data_outputs_witness :
    (runMain cfgBothPicks fsEventsOnly).outcome = .error .pickBothSet ∧
    "out_dir_make_epochs/meg.fif" ∉ (runMain cfgBothPicks fsEventsOnly).writes ∧
    "product.json" ∉ (runMain cfgBothPicks fsEventsOnly).writes :=
  validation_error_before_data_outputs cfgBothPicks bundleBothPicks
    fsEventsOnly (.list [.str "meg"]) (.slice 0 5 Option.none)
    rfl rfl rfl rfl rfl rfl rfl rfl rfl rfl rfl rfl rfl
